import Mathlib

/-!
# JJC::Thread (src/Thread.h): a shallow embedding

The handle `JJC::Thread<T>` is a record of seven fields. Every member function is
embedded as a function on `Sys`, the handle together with the part of the outside world
the member functions act on: the platform calls issued (in order), the lines written to
`std::cout`, the readable `pthread_t` objects, the platform's thread table, the result codes
of the coming `pthread_create` calls, and whether the process has faulted.

Pointers (`pthread_t*`, `T*`, function pointers) are raw addresses, `NULL` is `0`.
A member without an initialiser holds an indeterminate value after construction; the
constructors therefore take the raw storage they are run on as an argument.

A member function is embedded as its body run by a live process. Evaluating `*pid` with
`pid` null or pointing at no readable object faults: the process stops there, before the
call that would have used the value, and `faulted` records it. `run` applies the bodies one
after the other whatever `faulted` says, so its states include every state a real execution
passes through before a fault.
-/

namespace JJC

/-- Raw address: the value of a `pthread_t*`, a `T*` or a function pointer. -/
abbrev Ptr := Nat

/-- The null pointer. -/
def NULL : Ptr := 0

/-- One call into the pthreads library, with the arguments the code passes.
The `pthread_t` argument of join and cancel is the value read through `pid`
(`*pid`): `some t` when the object read holds thread id `t`, `none` when it holds
indeterminate bits (an object no successful `pthread_create` has filled). -/
inductive PlatformCall where
  | pthread_create (thread : Ptr) (attr : Ptr) (start_routine : Ptr) (arg : Ptr)
  | pthread_join (thread : Option Nat) (retval : Ptr)
  | pthread_cancel (thread : Option Nat)
  deriving DecidableEq, Repr

/-- A thread known to the platform: its id, its start routine and its argument. -/
structure Worker where
  tid : Nat
  start_routine : Ptr
  arg : Ptr
  deriving DecidableEq, Repr

/-- The world outside the handle. -/
structure World where
  /-- platform calls issued so far, oldest first -/
  calls : List PlatformCall
  /-- lines written to `std::cout`, oldest first -/
  out : List String
  /-- readable `pthread_t` objects, newest first: address and content, `some t` for the
  thread id `t`, `none` for indeterminate bits -/
  cells : List (Ptr × Option Nat)
  /-- threads created and not yet joined, newest first -/
  threads : List Worker
  /-- values the platform stored through a non-null `retval`: address and value -/
  stores : List (Ptr × Ptr)
  /-- address the next `new pthread_t` returns -/
  nextAddr : Ptr
  /-- id the next created thread gets -/
  nextTid : Nat
  /-- result codes of the coming `pthread_create` calls, in order; `0` is success, and a
  call beyond the end of the list succeeds -/
  create_results : List Nat
  /-- whether the library faults when handed a `pthread_t` that is no live thread (the
  behaviour is undefined, so the platform decides) -/
  bad_id_faults : Bool
  /-- whether the process has faulted -/
  faulted : Bool
  deriving DecidableEq, Repr

/-- The private data members of `JJC::Thread<T>` (Thread.h lines 68-74). -/
structure Thread where
  pid : Ptr
  fncPtr_l : Ptr
  fncPtr_v : Ptr
  f_ptr_param : Ptr
  call_with_data : Bool
  call_wo_data : Bool
  f_ptr_set : Bool
  deriving DecidableEq, Repr

/-- A handle (`self`, the object `this` points at) and the world it runs in. -/
structure Sys where
  self : Thread
  world : World
  deriving DecidableEq, Repr

/-- What the function pointers denote: `env f a` is the value the function at address
`f` returns when called with argument `a` (a deterministic entry point). -/
abbrev Env := Ptr → Ptr → Ptr

/-! ## The platform -/

/-- Result of evaluating `*p` for a `pthread_t* p`. -/
inductive Load where
  /-- the pointer is null or points at no readable object: the process faults -/
  | fault
  /-- the content of the object read: a thread id, or `none` for indeterminate bits -/
  | value (v : Option Nat)
  deriving DecidableEq, Repr

/-- The expression `*p`: a fault when `p` is null or no readable object lies at `p`,
otherwise the content of the object at `p`. -/
def deref (w : World) (p : Ptr) : Load :=
  if p = NULL then Load.fault
  else
    match w.cells.find? (fun c => c.1 == p) with
    | none => Load.fault
    | some c => Load.value c.2

/-- The expression `new pthread_t`: a fresh readable object holding indeterminate bits. -/
def new_pthread_t (w : World) : Ptr × World :=
  (w.nextAddr, { w with nextAddr := w.nextAddr + 1, cells := (w.nextAddr, none) :: w.cells })

/-- What the next `pthread_create` call leaves in `*thread`: the id of the new thread when
the call succeeds (result code `0`), indeterminate bits when it fails. -/
def created (w : World) : Option Nat :=
  if w.create_results.headD 0 = 0 then some w.nextTid else none

/-- The call `pthread_create(thread, attr, start_routine, arg)`: the call is recorded and
its result code is taken from `create_results`. On success a new thread running
`start_routine(arg)` is registered and its id is stored in `*thread`; on failure no thread
is registered and `*thread` holds indeterminate bits. The result code is not returned: the
code discards it (Thread.h lines 121, 124). -/
def pthread_create (w : World) (thread attr start_routine arg : Ptr) : World :=
  let w1 := { w with
    calls := w.calls ++ [PlatformCall.pthread_create thread attr start_routine arg]
    create_results := w.create_results.tail
    cells := (thread, created w) :: w.cells }
  if w.create_results.headD 0 = 0 then
    { w1 with
      threads := ⟨w.nextTid, start_routine, arg⟩ :: w.threads
      nextTid := w.nextTid + 1 }
  else w1

/-- The library was handed a `pthread_t` that is no live thread: undefined behaviour, the
process faults or goes on as the platform decides. -/
def bad_id (w : World) : World :=
  { w with faulted := w.faulted || w.bad_id_faults }

/-- The call `pthread_join(thread, retval)`: the call is recorded; when `thread` is a live
thread it is removed from the thread table, and when moreover `retval` is not null the value
its start routine returned is stored in `*retval`. -/
def pthread_join (env : Env) (w : World) (thread : Option Nat) (retval : Ptr) : World :=
  let w1 := { w with calls := w.calls ++ [PlatformCall.pthread_join thread retval] }
  match thread with
  | none => bad_id w1
  | some t =>
    match w1.threads.find? (fun k => k.tid == t) with
    | none => bad_id w1
    | some k =>
      let w2 := { w1 with threads := w1.threads.filter (fun j => !(j.tid == t)) }
      if retval = NULL then w2
      else { w2 with stores := (retval, env k.start_routine k.arg) :: w2.stores }

/-- The call `pthread_cancel(thread)`: the call is recorded; the thread stays in the thread
table until it is joined. -/
def pthread_cancel (w : World) (thread : Option Nat) : World :=
  let w1 := { w with calls := w.calls ++ [PlatformCall.pthread_cancel thread] }
  match thread with
  | none => bad_id w1
  | some t => if w1.threads.any (fun k => k.tid == t) then w1 else bad_id w1

/-- The statement `std::cout << line << std::endl`. -/
def cout (w : World) (line : String) : World :=
  { w with out := w.out ++ [line] }

/-! ## The member functions -/

/-- `setFunction(f_ptr, t_data)`, Thread.h lines 95-104. -/
def setFunction (f_ptr t_data : Ptr) (s : Sys) : Sys :=
  { s with self :=
    { s.self with
      call_with_data := true
      call_wo_data := false
      f_ptr_set := true
      fncPtr_l := f_ptr
      f_ptr_param := t_data } }

/-- `setFunction(f_ptr)`, Thread.h lines 106-115. -/
def setFunction_void (f_ptr : Ptr) (s : Sys) : Sys :=
  { s with self :=
    { s.self with
      call_wo_data := true
      call_with_data := false
      f_ptr_set := true
      fncPtr_l := f_ptr
      f_ptr_param := NULL } }

/-- The default constructor `Thread(void)`, Thread.h lines 79-83, run on the storage `raw`:
the three flags get their default member initialisers (lines 72-74), the other four members
keep whatever the storage held, and two lines are printed. -/
def Thread.new (raw : Thread) (w : World) : Sys :=
  { self := { raw with call_with_data := false, call_wo_data := false, f_ptr_set := false }
    world := cout (cout w "Default constructor used, not recommended")
      "Must call thread setup method before forking" }

/-- The constructor `Thread(f_ptr, t_data)`, Thread.h lines 85-88. -/
def Thread.new_with_data (raw : Thread) (w : World) (f_ptr t_data : Ptr) : Sys :=
  setFunction f_ptr t_data
    { self := { raw with call_with_data := false, call_wo_data := false, f_ptr_set := false }
      world := w }

/-- The constructor `Thread(f_ptr)`, Thread.h lines 90-93. -/
def Thread.new_wo_data (raw : Thread) (w : World) (f_ptr : Ptr) : Sys :=
  setFunction_void f_ptr
    { self := { raw with call_with_data := false, call_wo_data := false, f_ptr_set := false }
      world := w }

/-- `forkThread()`, Thread.h lines 117-128. -/
def forkThread (s : Sys) : Sys :=
  if s.self.call_with_data && !s.self.call_wo_data && s.self.f_ptr_set then
    let a := new_pthread_t s.world
    { self := { s.self with pid := a.1 }
      world := pthread_create a.2 a.1 NULL s.self.fncPtr_l s.self.f_ptr_param }
  else if s.self.call_wo_data && !s.self.call_with_data && s.self.f_ptr_set then
    let a := new_pthread_t s.world
    { self := { s.self with pid := a.1 }
      world := pthread_create a.2 a.1 NULL s.self.fncPtr_l NULL }
  else
    { s with world := cout s.world "Error forking thread" }

/-- `syncThread()`, Thread.h lines 130-133: `*pid` is evaluated first (a `pthread_t` is
passed by value); a fault there stops the process before `pthread_join` is called. -/
def syncThread (env : Env) (s : Sys) : Sys :=
  match deref s.world s.self.pid with
  | Load.fault => { s with world := { s.world with faulted := true } }
  | Load.value v => { s with world := pthread_join env s.world v NULL }

/-- `haltThread()`, Thread.h lines 135-138: `*pid` is evaluated first; a fault there stops
the process before `pthread_cancel` is called. -/
def haltThread (s : Sys) : Sys :=
  match deref s.world s.self.pid with
  | Load.fault => { s with world := { s.world with faulted := true } }
  | Load.value v => { s with world := pthread_cancel s.world v }

/-- `pauseThread()`, Thread.h lines 140-143: an empty statement. -/
def pauseThread (s : Sys) : Sys := s

/-- `resumeThread()`, Thread.h lines 145-148: an empty statement. -/
def resumeThread (s : Sys) : Sys := s

/-! ## Sequences of public operations -/

/-- One of the two forms of `setFunction`. -/
inductive Binding where
  | with_data (f_ptr t_data : Ptr)
  | wo_data (f_ptr : Ptr)
  deriving DecidableEq, Repr

/-- The `setFunction` call a binding stands for. -/
def Binding.apply : Binding → Sys → Sys
  | .with_data f p => setFunction f p
  | .wo_data f => setFunction_void f

/-- The function pointer a binding passes. -/
def Binding.fn : Binding → Ptr
  | .with_data f _ => f
  | .wo_data f => f

/-- The payload a binding passes; the one-argument form stores `NULL`. -/
def Binding.payload : Binding → Ptr
  | .with_data _ p => p
  | .wo_data _ => NULL

/-- A call of a public member function. -/
inductive Op where
  | bind (b : Binding)
  | forkThread
  | syncThread
  | haltThread
  | pauseThread
  | resumeThread
  deriving DecidableEq, Repr

/-- The member function an operation calls. -/
def Op.step (env : Env) : Op → Sys → Sys
  | .bind b => b.apply
  | .forkThread => JJC.forkThread
  | .syncThread => JJC.syncThread env
  | .haltThread => JJC.haltThread
  | .pauseThread => JJC.pauseThread
  | .resumeThread => JJC.resumeThread

/-- Runs the operations from left to right. -/
def run (env : Env) (ops : List Op) (s : Sys) : Sys :=
  ops.foldl (fun acc op => op.step env acc) s

/-- Is the operation a call of `setFunction`? -/
def Op.isBind : Op → Bool
  | .bind _ => true
  | _ => false

/-- Is the operation `pauseThread` or `resumeThread`? -/
def Op.isPauseResume : Op → Bool
  | .pauseThread => true
  | .resumeThread => true
  | _ => false

/-- Which constructor built the handle. -/
inductive Ctor where
  | default
  | with_data (f_ptr t_data : Ptr)
  | wo_data (f_ptr : Ptr)
  deriving DecidableEq, Repr

/-- Runs the constructor on the storage `raw` in the world `w`. -/
def Ctor.build (raw : Thread) (w : World) : Ctor → Sys
  | .default => Thread.new raw w
  | .with_data f p => Thread.new_with_data raw w f p
  | .wo_data f => Thread.new_wo_data raw w f

/-- Does the constructor bind an entry point? -/
def Ctor.binds : Ctor → Bool
  | .default => false
  | _ => true

/-- A world in which nothing has happened yet. -/
def World.init : World :=
  { calls := [], out := [], cells := [], threads := [], stores := [], nextAddr := 1, nextTid := 1,
    create_results := [], bad_id_faults := true, faulted := false }

/-- The initial world with one readable object at address `5` that holds indeterminate
bits. -/
def World.stray : World :=
  { World.init with cells := [(5, none)], nextAddr := 6 }

/-- The initial world in which the first `pthread_create` call fails with code `11`
(`EAGAIN`). -/
def World.exhausted : World :=
  { World.init with create_results := [11] }

/-- Storage whose members all hold zero bits. -/
def Thread.zeroed : Thread :=
  { pid := 0, fncPtr_l := 0, fncPtr_v := 0, f_ptr_param := 0,
    call_with_data := false, call_wo_data := false, f_ptr_set := false }

/-- Storage whose `pid` member holds the address `5` left over from an earlier use. -/
def Thread.stale : Thread :=
  { Thread.zeroed with pid := 5 }

/-- The line `forkThread` prints on its last branch. -/
def forkError : String := "Error forking thread"

/-- Bind with payload through the constructor, start, join: the round trip of the spec. -/
def roundTrip (env : Env) (raw : Thread) (w : World) (f_ptr t_data : Ptr) : Sys :=
  syncThread env (forkThread (Thread.new_with_data raw w f_ptr t_data))

/-- The state of the mode flags of a handle on which an entry point has (`true`) or has
not (`false`) been bound. -/
def Thread.flagsAs (h : Thread) : Bool → Prop
  | true => h.f_ptr_set = true ∧
      ((h.call_with_data = true ∧ h.call_wo_data = false) ∨
       (h.call_with_data = false ∧ h.call_wo_data = true))
  | false => h.f_ptr_set = false ∧ h.call_with_data = false ∧ h.call_wo_data = false

/-! ## Auxiliary facts -/

theorem append_singleton_ne {α : Type} (l : List α) (x : α) : l ++ [x] ≠ l := by
  intro h
  have := congrArg List.length h
  simp at this

theorem pthread_create_frame (w : World) (a attr f p : Ptr) :
    (pthread_create w a attr f p).calls =
      w.calls ++ [PlatformCall.pthread_create a attr f p] ∧
    (pthread_create w a attr f p).out = w.out ∧
    (pthread_create w a attr f p).stores = w.stores ∧
    (pthread_create w a attr f p).cells = (a, created w) :: w.cells ∧
    (pthread_create w a attr f p).nextAddr = w.nextAddr ∧
    (pthread_create w a attr f p).faulted = w.faulted ∧
    (pthread_create w a attr f p).bad_id_faults = w.bad_id_faults := by
  unfold pthread_create
  simp only
  split <;> simp

theorem created_of_success (w : World) (hok : w.create_results.headD 0 = 0) :
    created w = some w.nextTid := by
  unfold created
  rw [if_pos hok]

theorem deref_of_cells_cons (w : World) (a : Ptr) (v : Option Nat) (rest : List (Ptr × Option Nat))
    (ha : a ≠ NULL) (h : w.cells = (a, v) :: rest) : deref w a = Load.value v := by
  simp [deref, ha, h]

theorem deref_congr (w w2 : World) (a : Ptr) (h : w2.cells = w.cells) :
    deref w2 a = deref w a := by
  simp [deref, h]

theorem pthread_join_null_calls (env : Env) (w : World) (t : Option Nat) :
    (pthread_join env w t NULL).calls = w.calls ++ [PlatformCall.pthread_join t NULL] := by
  unfold pthread_join
  cases t with
  | none => rfl
  | some t =>
    simp only
    split <;> simp [bad_id]

theorem pthread_join_null_frame (env : Env) (w : World) (t : Option Nat) :
    (pthread_join env w t NULL).stores = w.stores ∧ (pthread_join env w t NULL).out = w.out ∧
    (pthread_join env w t NULL).cells = w.cells ∧
    (pthread_join env w t NULL).nextAddr = w.nextAddr ∧
    (pthread_join env w t NULL).nextTid = w.nextTid := by
  unfold pthread_join
  cases t with
  | none => simp [bad_id]
  | some t =>
    simp only
    split <;> simp [bad_id]

theorem pthread_join_null_env (env env2 : Env) (w : World) (t : Option Nat) :
    pthread_join env w t NULL = pthread_join env2 w t NULL := by
  unfold pthread_join
  cases t with
  | none => rfl
  | some t =>
    simp only
    split <;> simp

theorem pthread_cancel_frame (w : World) (t : Option Nat) :
    (pthread_cancel w t).calls = w.calls ++ [PlatformCall.pthread_cancel t] ∧
    (pthread_cancel w t).out = w.out := by
  unfold pthread_cancel
  cases t with
  | none => simp [bad_id]
  | some t =>
    simp only
    split <;> simp [bad_id]

theorem syncThread_env (env env2 : Env) (s : Sys) : syncThread env s = syncThread env2 s := by
  unfold syncThread
  cases deref s.world s.self.pid with
  | fault => rfl
  | value v => simp [pthread_join_null_env env env2]

theorem syncThread_of_value (env : Env) (s : Sys) (v : Option Nat)
    (h : deref s.world s.self.pid = Load.value v) :
    syncThread env s = { s with world := pthread_join env s.world v NULL } := by
  simp [syncThread, h]

theorem syncThread_calls (env : Env) (s : Sys) (v : Option Nat)
    (h : deref s.world s.self.pid = Load.value v) :
    (syncThread env s).world.calls = s.world.calls ++ [PlatformCall.pthread_join v NULL] := by
  rw [syncThread_of_value env s v h]
  exact pthread_join_null_calls env s.world v

theorem syncThread_frame (env : Env) (s : Sys) :
    (syncThread env s).self = s.self ∧ (syncThread env s).world.out = s.world.out ∧
    (syncThread env s).world.stores = s.world.stores ∧
    (syncThread env s).world.cells = s.world.cells := by
  unfold syncThread
  cases deref s.world s.self.pid with
  | fault => simp
  | value v =>
    obtain ⟨h1, h2, h3, _, _⟩ := pthread_join_null_frame env s.world v
    simp [h1, h2, h3]

theorem haltThread_frame (s : Sys) :
    (haltThread s).self = s.self ∧ (haltThread s).world.out = s.world.out := by
  unfold haltThread
  cases deref s.world s.self.pid with
  | fault => simp
  | value v => simp [(pthread_cancel_frame s.world v).2]

theorem forkThread_apply (b : Binding) (s : Sys) :
    forkThread (b.apply s) =
      { self := { (b.apply s).self with pid := s.world.nextAddr }
        world := pthread_create (new_pthread_t s.world).2 s.world.nextAddr NULL b.fn b.payload } := by
  cases b <;> simp [Binding.apply, Binding.fn, Binding.payload, forkThread, setFunction,
    setFunction_void, new_pthread_t]

theorem forkThread_calls_with_data (s : Sys) (h1 : s.self.call_with_data = true)
    (h2 : s.self.call_wo_data = false) (h3 : s.self.f_ptr_set = true) :
    (forkThread s).world.calls = s.world.calls ++
      [PlatformCall.pthread_create s.world.nextAddr NULL s.self.fncPtr_l s.self.f_ptr_param] := by
  simp [forkThread, h1, h2, h3, (pthread_create_frame _ _ _ _ _).1, new_pthread_t]

theorem forkThread_calls_wo_data (s : Sys) (h1 : s.self.call_with_data = false)
    (h2 : s.self.call_wo_data = true) (h3 : s.self.f_ptr_set = true) :
    (forkThread s).world.calls = s.world.calls ++
      [PlatformCall.pthread_create s.world.nextAddr NULL s.self.fncPtr_l NULL] := by
  simp [forkThread, h1, h2, h3, (pthread_create_frame _ _ _ _ _).1, new_pthread_t]

theorem forkThread_apply_calls (b : Binding) (s : Sys) :
    (forkThread (b.apply s)).world.calls =
      s.world.calls ++ [PlatformCall.pthread_create s.world.nextAddr NULL b.fn b.payload] := by
  rw [forkThread_apply]
  simp [(pthread_create_frame _ _ _ _ _).1, new_pthread_t]

theorem forkThread_apply_frame (b : Binding) (s : Sys) :
    (forkThread (b.apply s)).world.out = s.world.out ∧
    (forkThread (b.apply s)).world.stores = s.world.stores ∧
    (forkThread (b.apply s)).world.nextAddr = s.world.nextAddr + 1 ∧
    (forkThread (b.apply s)).self.pid = s.world.nextAddr := by
  rw [forkThread_apply]
  obtain ⟨_, h2, h3, _, h5, _, _⟩ :=
    pthread_create_frame (new_pthread_t s.world).2 s.world.nextAddr NULL b.fn b.payload
  simp only [h2, h3, h5]
  simp [new_pthread_t]

theorem deref_forkThread_apply (b : Binding) (s : Sys) (ha : s.world.nextAddr ≠ NULL) :
    deref (forkThread (b.apply s)).world (forkThread (b.apply s)).self.pid =
      Load.value (created s.world) := by
  rw [forkThread_apply]
  exact deref_of_cells_cons _ _ _ _ ha
    (pthread_create_frame (new_pthread_t s.world).2 s.world.nextAddr NULL b.fn b.payload).2.2.2.1

theorem Binding.apply_world (b : Binding) (t : Sys) : (b.apply t).world = t.world := by
  cases b <;> rfl

theorem forkThread_apply_exists (b : Binding) (s : Sys) :
    ∃ t : Sys, forkThread (b.apply s) = b.apply t ∧
      t.world.calls =
        s.world.calls ++ [PlatformCall.pthread_create s.world.nextAddr NULL b.fn b.payload] ∧
      t.world.out = s.world.out ∧ t.world.nextAddr = s.world.nextAddr + 1 ∧
      t.self = { s.self with pid := s.world.nextAddr } := by
  refine ⟨{ self := { s.self with pid := s.world.nextAddr }
            world := pthread_create (new_pthread_t s.world).2 s.world.nextAddr NULL b.fn
              b.payload }, ?_, ?_, ?_, ?_, rfl⟩
  · rw [forkThread_apply]
    cases b <;> simp [Binding.apply, setFunction, setFunction_void]
  · simp [(pthread_create_frame _ _ _ _ _).1, new_pthread_t]
  · simp [(pthread_create_frame _ _ _ _ _).2.1, new_pthread_t]
  · simp [(pthread_create_frame _ _ _ _ _).2.2.2.2.1, new_pthread_t]

theorem run_nil (env : Env) (s : Sys) : run env [] s = s := rfl

theorem run_cons (env : Env) (op : Op) (ops : List Op) (s : Sys) :
    run env (op :: ops) s = run env ops (op.step env s) := rfl

theorem step_flagsAs_bind (env : Env) (op : Op) (s : Sys) (h : op.isBind = true) :
    (op.step env s).self.flagsAs true := by
  cases op with
  | bind b => cases b <;> simp [Op.step, Binding.apply, setFunction, setFunction_void, Thread.flagsAs]
  | _ => simp [Op.isBind] at h

theorem forkThread_binding (s : Sys) :
    (forkThread s).self.fncPtr_l = s.self.fncPtr_l ∧
    (forkThread s).self.f_ptr_param = s.self.f_ptr_param ∧
    (forkThread s).self.call_with_data = s.self.call_with_data ∧
    (forkThread s).self.call_wo_data = s.self.call_wo_data ∧
    (forkThread s).self.f_ptr_set = s.self.f_ptr_set := by
  unfold forkThread
  split
  · simp
  · split <;> simp

theorem step_binding (env : Env) (op : Op) (s : Sys) (h : op.isBind = false) :
    (op.step env s).self.fncPtr_l = s.self.fncPtr_l ∧
    (op.step env s).self.f_ptr_param = s.self.f_ptr_param ∧
    (op.step env s).self.call_with_data = s.self.call_with_data ∧
    (op.step env s).self.call_wo_data = s.self.call_wo_data ∧
    (op.step env s).self.f_ptr_set = s.self.f_ptr_set := by
  cases op with
  | bind b => simp [Op.isBind] at h
  | forkThread => exact forkThread_binding s
  | syncThread => simp [Op.step, (syncThread_frame env s).1]
  | haltThread => simp [Op.step, (haltThread_frame s).1]
  | pauseThread => simp [Op.step, pauseThread]
  | resumeThread => simp [Op.step, resumeThread]

theorem step_flagsAs (env : Env) (op : Op) (s : Sys) (b : Bool) (h : s.self.flagsAs b) :
    (op.step env s).self.flagsAs (b || op.isBind) := by
  cases hb : op.isBind with
  | true => simpa using step_flagsAs_bind env op s hb
  | false =>
    obtain ⟨_, _, h3, h4, h5⟩ := step_binding env op s hb
    cases b <;> simp_all [Thread.flagsAs]

theorem run_flagsAs (env : Env) (ops : List Op) :
    ∀ (s : Sys) (b : Bool), s.self.flagsAs b → (run env ops s).self.flagsAs (b || ops.any Op.isBind) := by
  induction ops with
  | nil => intro s b h; simpa [run_nil] using h
  | cons op ops ih =>
    intro s b h
    have := ih (op.step env s) (b || op.isBind) (step_flagsAs env op s b h)
    simpa [run_cons, Bool.or_assoc] using this

theorem build_flagsAs (raw : Thread) (w : World) (c : Ctor) :
    (c.build raw w).self.flagsAs c.binds := by
  cases c <;> simp [Ctor.build, Ctor.binds, Thread.new, Thread.new_with_data, Thread.new_wo_data,
    setFunction, setFunction_void, Thread.flagsAs]

theorem run_binding (env : Env) (ops : List Op) :
    ∀ s : Sys,
    (run env (ops.filter (fun o => !o.isBind)) s).self.fncPtr_l = s.self.fncPtr_l ∧
    (run env (ops.filter (fun o => !o.isBind)) s).self.f_ptr_param = s.self.f_ptr_param ∧
    (run env (ops.filter (fun o => !o.isBind)) s).self.call_with_data = s.self.call_with_data ∧
    (run env (ops.filter (fun o => !o.isBind)) s).self.call_wo_data = s.self.call_wo_data ∧
    (run env (ops.filter (fun o => !o.isBind)) s).self.f_ptr_set = s.self.f_ptr_set := by
  induction ops with
  | nil => intro s; simp [run_nil]
  | cons op ops ih =>
    intro s
    cases hb : op.isBind with
    | true => simpa [List.filter, hb] using ih s
    | false =>
      have h1 := ih (op.step env s)
      have h2 := step_binding env op s hb
      simp only [List.filter, hb, Bool.not_false, run_cons]
      refine ⟨h1.1.trans h2.1, h1.2.1.trans h2.2.1, h1.2.2.1.trans h2.2.2.1,
        h1.2.2.2.1.trans h2.2.2.2.1, h1.2.2.2.2.trans h2.2.2.2.2⟩

theorem forkThread_error_iff (s : Sys) (b : Bool) (h : s.self.flagsAs b) :
    forkThread s = { s with world := cout s.world forkError } ↔ b = false := by
  cases b with
  | false =>
    obtain ⟨h1, h2, h3⟩ := h
    simp [forkThread, h1, h2, h3, forkError]
  | true =>
    obtain ⟨h1, h2⟩ := h
    simp only [Bool.true_eq_false, iff_false]
    intro e
    have e2 := congrArg (fun x => x.world.calls) e
    rcases h2 with ⟨h2, h3⟩ | ⟨h2, h3⟩ <;>
      simp [forkThread, h1, h2, h3, cout, (pthread_create_frame _ _ _ _ _).1, new_pthread_t] at e2

/-! ## Properties of the member functions -/

/-- C1: on a handle whose three mode flags are all false (no `setFunction` was called, as on
a default-constructed handle) `forkThread` issues no platform call, leaves `pid` and every
other field of the handle unchanged, and its only effect is the printed line
"Error forking thread". -/
theorem forkThread_unconfigured (h : Thread) (w : World)
    (hd : h.call_with_data = false) (hv : h.call_wo_data = false) (hs : h.f_ptr_set = false) :
    forkThread ⟨h, w⟩ = ⟨h, { w with out := w.out ++ ["Error forking thread"] }⟩ ∧
    (forkThread ⟨h, w⟩).world.calls = w.calls ∧
    (forkThread ⟨h, w⟩).self = h ∧
    (forkThread ⟨h, w⟩).world.out = w.out ++ ["Error forking thread"] ∧
    (∀ (raw : Thread) (w0 : World),
      forkThread (Thread.new raw w0) =
        { Thread.new raw w0 with
          world := cout (Thread.new raw w0).world "Error forking thread" }) := by
  have e : forkThread ⟨h, w⟩ = ⟨h, { w with out := w.out ++ ["Error forking thread"] }⟩ := by
    simp [forkThread, hd, hv, hs, cout]
  refine ⟨e, by rw [e], by rw [e], by rw [e], ?_⟩
  intro raw w0
  simp [forkThread, Thread.new]

/-- Witness for C1: the zeroed handle in the initial world. -/
theorem forkThread_unconfigured_witness :
    Thread.zeroed.call_with_data = false ∧ Thread.zeroed.call_wo_data = false ∧
    Thread.zeroed.f_ptr_set = false ∧
    (forkThread ⟨Thread.zeroed, World.init⟩ =
      ⟨Thread.zeroed, { World.init with out := World.init.out ++ ["Error forking thread"] }⟩ ∧
    (forkThread ⟨Thread.zeroed, World.init⟩).world.calls = World.init.calls ∧
    (forkThread ⟨Thread.zeroed, World.init⟩).self = Thread.zeroed ∧
    (forkThread ⟨Thread.zeroed, World.init⟩).world.out =
      World.init.out ++ ["Error forking thread"] ∧
    (∀ (raw : Thread) (w0 : World),
      forkThread (Thread.new raw w0) =
        { Thread.new raw w0 with
          world := cout (Thread.new raw w0).world "Error forking thread" })) :=
  ⟨rfl, rfl, rfl, forkThread_unconfigured Thread.zeroed World.init rfl rfl rfl⟩

/-- C2: rebinding is last-write-wins. For every state `s` and bindings `b1`, `b2`, the state
after `b1` then `b2` is the state after `b2` alone; rebinding without data after binding
with data stores `NULL` as payload and switches the mode flags; a following `forkThread`
issues its creation call with the function and payload of `b2` only. -/
theorem setFunction_last_write_wins (s : Sys) (b1 b2 : Binding) :
    b2.apply (b1.apply s) = b2.apply s ∧
    (∀ f p g : Ptr,
      (setFunction_void g (setFunction f p s)).self.f_ptr_param = NULL ∧
      (setFunction_void g (setFunction f p s)).self.fncPtr_l = g ∧
      (setFunction_void g (setFunction f p s)).self.call_with_data = false ∧
      (setFunction_void g (setFunction f p s)).self.call_wo_data = true ∧
      (setFunction_void g (setFunction f p s)).self.f_ptr_set = true) ∧
    forkThread (b2.apply (b1.apply s)) = forkThread (b2.apply s) ∧
    (forkThread (b2.apply (b1.apply s))).world.calls =
      s.world.calls ++ [PlatformCall.pthread_create s.world.nextAddr NULL b2.fn b2.payload] := by
  have e : b2.apply (b1.apply s) = b2.apply s := by
    cases b1 <;> cases b2 <;> simp [Binding.apply, setFunction, setFunction_void]
  refine ⟨e, ?_, by rw [e], ?_⟩
  · intro f p g
    simp [setFunction, setFunction_void]
  · rw [e]
    exact forkThread_apply_calls b2 s

/-- C3: `forkThread` delegates the binding unchanged. After `setFunction(f, p)` it issues
exactly one creation call, with entry function `f` and argument `p`; after `setFunction(f)`
exactly one creation call with entry function `f` and argument `NULL`; the stored function,
payload and flags are the same after `forkThread` as before. The same holds when operations
other than `setFunction` were called between the binding and the start. -/
theorem forkThread_delegates (env : Env) (s : Sys) (f p : Ptr) (ops : List Op) :
    (forkThread (setFunction f p s)).world.calls =
      s.world.calls ++ [PlatformCall.pthread_create s.world.nextAddr NULL f p] ∧
    (forkThread (setFunction f p s)).self =
      { (setFunction f p s).self with pid := s.world.nextAddr } ∧
    (forkThread (setFunction f p s)).self.fncPtr_l = f ∧
    (forkThread (setFunction f p s)).self.f_ptr_param = p ∧
    (forkThread (setFunction_void f s)).world.calls =
      s.world.calls ++ [PlatformCall.pthread_create s.world.nextAddr NULL f NULL] ∧
    (forkThread (setFunction_void f s)).self =
      { (setFunction_void f s).self with pid := s.world.nextAddr } ∧
    (forkThread (setFunction_void f s)).self.fncPtr_l = f ∧
    (forkThread (setFunction_void f s)).self.f_ptr_param = NULL ∧
    (∀ b : Binding,
      (forkThread (run env (ops.filter (fun o => !o.isBind)) (b.apply s))).world.calls =
        (run env (ops.filter (fun o => !o.isBind)) (b.apply s)).world.calls ++
          [PlatformCall.pthread_create
            (run env (ops.filter (fun o => !o.isBind)) (b.apply s)).world.nextAddr
            NULL b.fn b.payload] ∧
      (forkThread (run env (ops.filter (fun o => !o.isBind)) (b.apply s))).self.fncPtr_l = b.fn ∧
      (forkThread (run env (ops.filter (fun o => !o.isBind)) (b.apply s))).self.f_ptr_param =
        b.payload) := by
  have e1 := forkThread_apply (Binding.with_data f p) s
  have e2 := forkThread_apply (Binding.wo_data f) s
  simp only [Binding.apply, Binding.fn, Binding.payload] at e1 e2
  refine ⟨?_, ?_, ?_, ?_, ?_, ?_, ?_, ?_, ?_⟩
  · exact forkThread_apply_calls (Binding.with_data f p) s
  · rw [e1]
  · rw [e1]; simp [setFunction]
  · rw [e1]; simp [setFunction]
  · exact forkThread_apply_calls (Binding.wo_data f) s
  · rw [e2]
  · rw [e2]; simp [setFunction_void]
  · rw [e2]; simp [setFunction_void]
  · intro b
    obtain ⟨h1, h2, h3, h4, h5⟩ := run_binding env ops (b.apply s)
    obtain ⟨k1, k2, _, _, _⟩ :=
      forkThread_binding (run env (ops.filter (fun o => !o.isBind)) (b.apply s))
    refine ⟨?_, ?_, ?_⟩
    · cases b with
      | with_data g q =>
        rw [forkThread_calls_with_data _ (by rw [h3]; rfl) (by rw [h4]; rfl) (by rw [h5]; rfl),
          h1, h2]
        rfl
      | wo_data g =>
        rw [forkThread_calls_wo_data _ (by rw [h3]; rfl) (by rw [h4]; rfl) (by rw [h5]; rfl), h1]
        rfl
    · rw [k1, h1]; cases b <;> simp [Binding.apply, Binding.fn, setFunction, setFunction_void]
    · rw [k2, h2]; cases b <;> simp [Binding.apply, Binding.payload, setFunction, setFunction_void]

/-- C4, as stated, fails: with the function pointer `7` bound to payload `3`, the state
after bind, `forkThread`, `syncThread` is the same whether the entry point returns `1` or
`2`, and nothing was stored for the caller; so nothing the caller can observe is the value
the worker returned. -/
theorem join_round_trip_counterexample :
    roundTrip (fun _ _ => 1) Thread.zeroed World.init 7 3 =
      roundTrip (fun _ _ => 2) Thread.zeroed World.init 7 3 ∧
    (roundTrip (fun _ _ => 1) Thread.zeroed World.init 7 3).world.stores = [] ∧
    ¬ ∃ obs : Sys → Ptr, ∀ env : Env, obs (roundTrip env Thread.zeroed World.init 7 3) = env 7 3 := by
  have e : roundTrip (fun _ _ => 1) Thread.zeroed World.init 7 3 =
      roundTrip (fun _ _ => 2) Thread.zeroed World.init 7 3 := by decide
  refine ⟨e, by decide, ?_⟩
  rintro ⟨obs, h⟩
  have h1 := h (fun _ _ => 1)
  have h2 := h (fun _ _ => 2)
  rw [e, h2] at h1
  exact absurd h1 (by decide)

/-- C4, amended: binding `E` with `P` (constructor or `setFunction`), then `forkThread`, then
`syncThread` issues one creation call with `E` and `P` and one join call with a `NULL`
result slot on the `pthread_t` that `pthread_create` left in `*pid`: the created thread
when the creation succeeded, indeterminate bits when it failed (`forkThread` discards the
result code). `syncThread` returns nothing, nothing is stored for the caller, and the final
state does not depend on what `E` returns. -/
theorem join_discards_result (env : Env) (raw : Thread) (w : World) (s : Sys) (f p : Ptr)
    (hw : w.nextAddr ≠ NULL) (hs : s.world.nextAddr ≠ NULL) :
    (roundTrip env raw w f p).world.calls =
      w.calls ++ [PlatformCall.pthread_create w.nextAddr NULL f p,
        PlatformCall.pthread_join (created w) NULL] ∧
    (roundTrip env raw w f p).world.stores = w.stores ∧
    (∀ env2 : Env, roundTrip env2 raw w f p = roundTrip env raw w f p) ∧
    (syncThread env (forkThread (setFunction f p s))).world.calls =
      s.world.calls ++ [PlatformCall.pthread_create s.world.nextAddr NULL f p,
        PlatformCall.pthread_join (created s.world) NULL] ∧
    (syncThread env (forkThread (setFunction f p s))).world.stores = s.world.stores ∧
    (∀ env2 : Env, syncThread env2 (forkThread (setFunction f p s)) =
      syncThread env (forkThread (setFunction f p s))) := by
  have key : ∀ t : Sys, t.world.nextAddr ≠ NULL →
      (syncThread env (forkThread (setFunction f p t))).world.calls =
        t.world.calls ++ [PlatformCall.pthread_create t.world.nextAddr NULL f p,
          PlatformCall.pthread_join (created t.world) NULL] ∧
      (syncThread env (forkThread (setFunction f p t))).world.stores = t.world.stores ∧
      ∀ env2 : Env, syncThread env2 (forkThread (setFunction f p t)) =
        syncThread env (forkThread (setFunction f p t)) := by
    intro t ht
    have a1 := deref_forkThread_apply (Binding.with_data f p) t ht
    have a2 := forkThread_apply_calls (Binding.with_data f p) t
    have a3 := (forkThread_apply_frame (Binding.with_data f p) t).2.1
    simp only [Binding.apply, Binding.fn, Binding.payload] at a1 a2 a3
    refine ⟨?_, ?_, fun env2 => syncThread_env env2 env _⟩
    · rw [syncThread_calls env _ _ a1, a2]; simp
    · rw [(syncThread_frame env _).2.2.1, a3]
  obtain ⟨k1, k2, k3⟩ := key s hs
  exact ⟨(key ⟨_, w⟩ hw).1, (key ⟨_, w⟩ hw).2.1, (key ⟨_, w⟩ hw).2.2, k1, k2, k3⟩

/-- Witness for C4, amended: the zeroed storage with function `7` and payload `3`, once in
the initial world (the creation succeeds) and once in a world whose first creation fails. -/
theorem join_discards_result_witness :
    World.init.nextAddr ≠ NULL ∧ World.exhausted.nextAddr ≠ NULL ∧
    (roundTrip (fun _ _ => 1) Thread.zeroed World.init 7 3).world.calls =
      World.init.calls ++ [PlatformCall.pthread_create World.init.nextAddr NULL 7 3,
        PlatformCall.pthread_join (created World.init) NULL] ∧
    created World.init = some 1 ∧
    (roundTrip (fun _ _ => 1) Thread.zeroed World.exhausted 7 3).world.calls =
      World.exhausted.calls ++ [PlatformCall.pthread_create World.exhausted.nextAddr NULL 7 3,
        PlatformCall.pthread_join (created World.exhausted) NULL] ∧
    created World.exhausted = none ∧
    (roundTrip (fun _ _ => 1) Thread.zeroed World.exhausted 7 3).world.stores =
      World.exhausted.stores :=
  ⟨by decide, by decide,
    (join_discards_result (fun _ _ => 1) Thread.zeroed World.init ⟨Thread.zeroed, World.init⟩ 7 3
      (by decide) (by decide)).1,
    by decide,
    (join_discards_result (fun _ _ => 1) Thread.zeroed World.exhausted
      ⟨Thread.zeroed, World.init⟩ 7 3 (by decide) (by decide)).1,
    by decide,
    (join_discards_result (fun _ _ => 1) Thread.zeroed World.exhausted
      ⟨Thread.zeroed, World.init⟩ 7 3 (by decide) (by decide)).2.1⟩

/-- C5, as stated, fails: on a handle built with function `7` and payload `3`, the second
`forkThread` issues a second creation call, prints nothing, and moves `pid` from the first
`pthread_t` object (address 1, thread 1) to a new one (address 2, thread 2). -/
theorem forkThread_twice_counterexample :
    (forkThread (forkThread (Thread.new_with_data Thread.zeroed World.init 7 3))).world.calls =
      [PlatformCall.pthread_create 1 NULL 7 3, PlatformCall.pthread_create 2 NULL 7 3] ∧
    (forkThread (forkThread (Thread.new_with_data Thread.zeroed World.init 7 3))).world.out = [] ∧
    (forkThread (Thread.new_with_data Thread.zeroed World.init 7 3)).self.pid = 1 ∧
    (forkThread (forkThread (Thread.new_with_data Thread.zeroed World.init 7 3))).self.pid = 2 ∧
    ¬ ((forkThread (forkThread (Thread.new_with_data Thread.zeroed World.init 7 3))).world.calls =
      (forkThread (Thread.new_with_data Thread.zeroed World.init 7 3)).world.calls) := by
  decide

/-- C5, amended: `forkThread` keeps no record of having started. On a configured handle a
second `forkThread` prints nothing, issues a second creation call with the same function and
payload, and sets `pid` to a newly allocated `pthread_t` object; the stored binding is
unchanged. After each `forkThread` the object `pid` points at holds what that creation call
left there: the new thread when the call succeeded, indeterminate bits when it failed. -/
theorem forkThread_twice (s : Sys) (b : Binding) (ha : s.world.nextAddr ≠ NULL) :
    (forkThread (forkThread (b.apply s))).world.calls =
      s.world.calls ++ [PlatformCall.pthread_create s.world.nextAddr NULL b.fn b.payload,
        PlatformCall.pthread_create (s.world.nextAddr + 1) NULL b.fn b.payload] ∧
    (forkThread (forkThread (b.apply s))).world.out = s.world.out ∧
    (forkThread (b.apply s)).self.pid = s.world.nextAddr ∧
    (forkThread (forkThread (b.apply s))).self.pid = s.world.nextAddr + 1 ∧
    deref (forkThread (b.apply s)).world (forkThread (b.apply s)).self.pid =
      Load.value (created s.world) ∧
    deref (forkThread (forkThread (b.apply s))).world
      (forkThread (forkThread (b.apply s))).self.pid =
        Load.value (created (forkThread (b.apply s)).world) ∧
    (forkThread (forkThread (b.apply s))).self =
      { (b.apply s).self with pid := s.world.nextAddr + 1 } := by
  obtain ⟨t, e, tc, tout, taddr, tself⟩ := forkThread_apply_exists b s
  have hne : t.world.nextAddr ≠ NULL := by rw [taddr]; exact Nat.succ_ne_zero _
  refine ⟨?_, ?_, (forkThread_apply_frame b s).2.2.2, ?_, deref_forkThread_apply b s ha, ?_, ?_⟩
  · rw [e, forkThread_apply_calls b t, tc, taddr]; simp
  · rw [e, (forkThread_apply_frame b t).1, tout]
  · rw [e, (forkThread_apply_frame b t).2.2.2, taddr]
  · rw [e, Binding.apply_world]
    exact deref_forkThread_apply b t hne
  · rw [e, forkThread_apply b t]
    cases b <;> simp [Binding.apply, setFunction, setFunction_void, tself, taddr]

/-- Witness for C5, amended: the zeroed handle bound to function `7` and payload `3`, in
the initial world. -/
theorem forkThread_twice_witness :
    (⟨Thread.zeroed, World.init⟩ : Sys).world.nextAddr ≠ NULL ∧
    (forkThread (forkThread ((Binding.with_data 7 3).apply ⟨Thread.zeroed, World.init⟩))).world.calls =
      (⟨Thread.zeroed, World.init⟩ : Sys).world.calls ++
        [PlatformCall.pthread_create (⟨Thread.zeroed, World.init⟩ : Sys).world.nextAddr NULL
          (Binding.with_data 7 3).fn (Binding.with_data 7 3).payload,
        PlatformCall.pthread_create ((⟨Thread.zeroed, World.init⟩ : Sys).world.nextAddr + 1) NULL
          (Binding.with_data 7 3).fn (Binding.with_data 7 3).payload] ∧
    (forkThread (forkThread ((Binding.with_data 7 3).apply ⟨Thread.zeroed, World.init⟩))).self.pid = 2 :=
  ⟨by decide,
    (forkThread_twice ⟨Thread.zeroed, World.init⟩ (Binding.with_data 7 3) (by decide)).1,
    (forkThread_twice ⟨Thread.zeroed, World.init⟩ (Binding.with_data 7 3) (by decide)).2.2.2.1⟩

/-- C6, as stated, fails: on a handle built with function `7` and payload `3`, after
`forkThread` and `syncThread` a second `syncThread` prints nothing and issues a second join
call on the same thread. -/
theorem syncThread_twice_counterexample :
    (syncThread (fun _ _ => 0) (syncThread (fun _ _ => 0)
      (forkThread (Thread.new_with_data Thread.zeroed World.init 7 3)))).world.calls =
      [PlatformCall.pthread_create 1 NULL 7 3, PlatformCall.pthread_join (some 1) NULL,
        PlatformCall.pthread_join (some 1) NULL] ∧
    (syncThread (fun _ _ => 0) (syncThread (fun _ _ => 0)
      (forkThread (Thread.new_with_data Thread.zeroed World.init 7 3)))).world.out = [] ∧
    ¬ ((syncThread (fun _ _ => 0) (syncThread (fun _ _ => 0)
      (forkThread (Thread.new_with_data Thread.zeroed World.init 7 3)))).world.calls =
      (syncThread (fun _ _ => 0)
        (forkThread (Thread.new_with_data Thread.zeroed World.init 7 3))).world.calls) := by
  decide

/-- C6, amended: `syncThread` keeps no record of having joined. After a `forkThread` whose
creation call succeeded and a `syncThread`, a second `syncThread` prints nothing, leaves the
handle unchanged and issues one more join call, on the same thread id and with a `NULL`
result slot. -/
theorem syncThread_twice (env : Env) (s : Sys) (b : Binding)
    (ha : s.world.nextAddr ≠ NULL) (hok : s.world.create_results.headD 0 = 0) :
    (syncThread env (syncThread env (forkThread (b.apply s)))).world.calls =
      (syncThread env (forkThread (b.apply s))).world.calls ++
        [PlatformCall.pthread_join (some s.world.nextTid) NULL] ∧
    (syncThread env (syncThread env (forkThread (b.apply s)))).world.calls =
      s.world.calls ++ [PlatformCall.pthread_create s.world.nextAddr NULL b.fn b.payload,
        PlatformCall.pthread_join (some s.world.nextTid) NULL,
        PlatformCall.pthread_join (some s.world.nextTid) NULL] ∧
    (syncThread env (syncThread env (forkThread (b.apply s)))).self =
      (syncThread env (forkThread (b.apply s))).self ∧
    (syncThread env (syncThread env (forkThread (b.apply s)))).world.out = s.world.out := by
  have a1 := deref_forkThread_apply b s ha
  rw [created_of_success s.world hok] at a1
  have a2 := forkThread_apply_calls b s
  obtain ⟨f1, f2, _, f4⟩ := syncThread_frame env (forkThread (b.apply s))
  obtain ⟨g1, g2, _, _⟩ := syncThread_frame env (syncThread env (forkThread (b.apply s)))
  have r : deref (syncThread env (forkThread (b.apply s))).world
      (syncThread env (forkThread (b.apply s))).self.pid = Load.value (some s.world.nextTid) := by
    rw [f1, deref_congr _ _ _ f4]
    exact a1
  refine ⟨syncThread_calls env _ _ r, ?_, g1, ?_⟩
  · rw [syncThread_calls env _ _ r, syncThread_calls env _ _ a1, a2]; simp
  · rw [g2, f2, (forkThread_apply_frame b s).1]

/-- Witness for C6, amended: the zeroed handle bound to function `7` and payload `3`, in
the initial world, where the creation call succeeds. -/
theorem syncThread_twice_witness :
    (⟨Thread.zeroed, World.init⟩ : Sys).world.nextAddr ≠ NULL ∧
    (⟨Thread.zeroed, World.init⟩ : Sys).world.create_results.headD 0 = 0 ∧
    (syncThread (fun _ _ => 0) (syncThread (fun _ _ => 0)
      (forkThread ((Binding.with_data 7 3).apply ⟨Thread.zeroed, World.init⟩)))).world.calls =
      (⟨Thread.zeroed, World.init⟩ : Sys).world.calls ++
        [PlatformCall.pthread_create (⟨Thread.zeroed, World.init⟩ : Sys).world.nextAddr NULL
          (Binding.with_data 7 3).fn (Binding.with_data 7 3).payload,
        PlatformCall.pthread_join (some (⟨Thread.zeroed, World.init⟩ : Sys).world.nextTid) NULL,
        PlatformCall.pthread_join (some (⟨Thread.zeroed, World.init⟩ : Sys).world.nextTid) NULL] :=
  ⟨by decide, by decide,
    (syncThread_twice (fun _ _ => 0) ⟨Thread.zeroed, World.init⟩ (Binding.with_data 7 3)
      (by decide) (by decide)).2.1⟩

/-- C7: the code at handles on which no `forkThread` has created a thread. `syncThread` and
`haltThread` evaluate `*pid` without any check. On zeroed storage (`pid` null) a
default-constructed handle, a bound handle and a handle whose `forkThread` took the error
branch all fault at the dereference: no call is issued, and nothing is reported (the output
holds only the two lines of the default constructor). On storage whose `pid` holds the
address of a readable object, `pthread_join` and `pthread_cancel` are issued on the
indeterminate bits read there. -/
theorem syncThread_haltThread_unstarted :
    (syncThread (fun _ _ => 0) (Thread.new Thread.zeroed World.init)).world.faulted = true ∧
    (syncThread (fun _ _ => 0) (Thread.new Thread.zeroed World.init)).world.calls = [] ∧
    (syncThread (fun _ _ => 0) (Thread.new Thread.zeroed World.init)).world.out =
      (Thread.new Thread.zeroed World.init).world.out ∧
    (haltThread (Thread.new Thread.zeroed World.init)).world.faulted = true ∧
    (haltThread (Thread.new Thread.zeroed World.init)).world.calls = [] ∧
    (haltThread (Thread.new Thread.zeroed World.init)).world.out =
      (Thread.new Thread.zeroed World.init).world.out ∧
    (syncThread (fun _ _ => 0)
      (Thread.new_with_data Thread.zeroed World.init 7 3)).world.faulted = true ∧
    (haltThread (Thread.new_wo_data Thread.zeroed World.init 7)).world.faulted = true ∧
    (syncThread (fun _ _ => 0)
      (forkThread (Thread.new Thread.zeroed World.init))).world.faulted = true ∧
    (haltThread (forkThread (Thread.new Thread.zeroed World.init))).world.faulted = true ∧
    (Thread.new Thread.stale World.stray).self.pid = 5 ∧
    (Thread.new Thread.stale World.stray).world.threads = [] ∧
    (syncThread (fun _ _ => 0) (Thread.new Thread.stale World.stray)).world.calls =
      [PlatformCall.pthread_join none NULL] ∧
    (haltThread (Thread.new Thread.stale World.stray)).world.calls =
      [PlatformCall.pthread_cancel none] ∧
    (syncThread (fun _ _ => 0) (Thread.new_with_data Thread.stale World.stray 7 3)).world.calls =
      [PlatformCall.pthread_join none NULL] := by
  decide

/-- C8, as stated, fails: on a handle built with function `7` and payload `3` and started,
`setFunction(9)` prints nothing and replaces the stored function by `9`, the stored payload
by `NULL`, and switches the mode flags. -/
theorem setFunction_after_fork_counterexample :
    (forkThread (Thread.new_with_data Thread.zeroed World.init 7 3)).self.fncPtr_l = 7 ∧
    (forkThread (Thread.new_with_data Thread.zeroed World.init 7 3)).self.f_ptr_param = 3 ∧
    (forkThread (Thread.new_with_data Thread.zeroed World.init 7 3)).self.call_with_data = true ∧
    (setFunction_void 9
      (forkThread (Thread.new_with_data Thread.zeroed World.init 7 3))).self.fncPtr_l = 9 ∧
    (setFunction_void 9
      (forkThread (Thread.new_with_data Thread.zeroed World.init 7 3))).self.f_ptr_param = NULL ∧
    (setFunction_void 9
      (forkThread (Thread.new_with_data Thread.zeroed World.init 7 3))).self.call_with_data = false ∧
    (setFunction_void 9
      (forkThread (Thread.new_with_data Thread.zeroed World.init 7 3))).world.out = [] ∧
    ¬ ((setFunction_void 9 (forkThread (Thread.new_with_data Thread.zeroed World.init 7 3))).self =
      (forkThread (Thread.new_with_data Thread.zeroed World.init 7 3)).self) ∧
    ¬ ((setFunction 9 4 (forkThread (Thread.new_with_data Thread.zeroed World.init 7 3))).self =
      (forkThread (Thread.new_with_data Thread.zeroed World.init 7 3)).self) := by
  decide

/-- C8, amended: `setFunction` makes no check of whether the handle was started. After
`forkThread`, either form of `setFunction` stores its function and payload (`NULL` for the
one-argument form) and sets the mode flags exactly as before a start; it leaves `pid`, the
platform calls and the output as `forkThread` left them. -/
theorem setFunction_after_fork (s : Sys) (b : Binding) :
    (b.apply (forkThread s)).self.fncPtr_l = b.fn ∧
    (b.apply (forkThread s)).self.f_ptr_param = b.payload ∧
    (b.apply (forkThread s)).self.f_ptr_set = true ∧
    (b.apply (forkThread s)).self.call_with_data = (b.apply s).self.call_with_data ∧
    (b.apply (forkThread s)).self.call_wo_data = (b.apply s).self.call_wo_data ∧
    (b.apply (forkThread s)).self = { (b.apply s).self with pid := (forkThread s).self.pid } ∧
    (b.apply (forkThread s)).world = (forkThread s).world := by
  obtain ⟨_, _, _, _, _⟩ := forkThread_binding s
  have hv : (forkThread s).self.fncPtr_v = s.self.fncPtr_v := by
    unfold forkThread
    split
    · simp
    · split <;> simp
  cases b <;> simp [Binding.apply, Binding.fn, Binding.payload, setFunction, setFunction_void, hv]

/-- C9: `pauseThread` and `resumeThread` are no-ops. In every state each returns the state
unchanged (every field of the handle, the platform calls and the output); hence a sequence
of operations yields the same final state as the sequence with its `pauseThread` and
`resumeThread` calls removed. -/
theorem pause_resume_noop (env : Env) (s : Sys) (ops : List Op) :
    pauseThread s = s ∧ resumeThread s = s ∧
    Op.pauseThread.step env s = s ∧ Op.resumeThread.step env s = s ∧
    run env ops s = run env (ops.filter (fun o => !o.isPauseResume)) s := by
  refine ⟨rfl, rfl, rfl, rfl, ?_⟩
  induction ops generalizing s with
  | nil => rfl
  | cons op ops ih =>
    cases op <;> simp [List.filter, Op.isPauseResume, run_cons, Op.step, pauseThread,
      resumeThread, ih]

/-- C10: in every state reached from one of the three constructors by a finite sequence of
public operations, `call_with_data` and `call_wo_data` are not both true, `f_ptr_set` is
true exactly when exactly one of them is true, and `forkThread` takes its
"Error forking thread" branch exactly when no entry point was ever bound (the constructor
was the default one and no `setFunction` was called). -/
theorem mode_flag_invariant (env : Env) (raw : Thread) (w : World) (c : Ctor) (ops : List Op) :
    ¬ ((run env ops (c.build raw w)).self.call_with_data = true ∧
       (run env ops (c.build raw w)).self.call_wo_data = true) ∧
    ((run env ops (c.build raw w)).self.f_ptr_set = true ↔
      (((run env ops (c.build raw w)).self.call_with_data = true ∧
        (run env ops (c.build raw w)).self.call_wo_data = false) ∨
       ((run env ops (c.build raw w)).self.call_with_data = false ∧
        (run env ops (c.build raw w)).self.call_wo_data = true))) ∧
    (forkThread (run env ops (c.build raw w)) =
        { run env ops (c.build raw w) with
          world := cout (run env ops (c.build raw w)).world "Error forking thread" } ↔
      (c = Ctor.default ∧ ∀ op ∈ ops, op.isBind = false)) ∧
    ((forkThread (run env ops (c.build raw w))).world.out =
        (run env ops (c.build raw w)).world.out ++ ["Error forking thread"] ↔
      (c = Ctor.default ∧ ∀ op ∈ ops, op.isBind = false)) := by
  have inv := run_flagsAs env ops (c.build raw w) c.binds (build_flagsAs raw w c)
  have hb : (c.binds || ops.any Op.isBind) = false ↔
      (c = Ctor.default ∧ ∀ op ∈ ops, op.isBind = false) := by
    cases c <;> simp [Ctor.binds]
  have herr := forkThread_error_iff _ _ inv
  generalize run env ops (c.build raw w) = t at inv herr ⊢
  rw [← hb]
  refine ⟨?_, ?_, herr, ?_⟩
  · cases hbb : (c.binds || ops.any Op.isBind) <;> rw [hbb] at inv
    · obtain ⟨_, h2, _⟩ := inv; simp [h2]
    · obtain ⟨_, h2⟩ := inv
      rcases h2 with ⟨h2, h3⟩ | ⟨h2, h3⟩ <;> simp [h2, h3]
  · cases hbb : (c.binds || ops.any Op.isBind) <;> rw [hbb] at inv
    · obtain ⟨h1, h2, h3⟩ := inv; simp [h1, h2, h3]
    · obtain ⟨h1, h2⟩ := inv
      rcases h2 with ⟨h2, h3⟩ | ⟨h2, h3⟩ <;> simp [h1, h2, h3]
  · cases hbb : (c.binds || ops.any Op.isBind) <;> rw [hbb] at inv
    · obtain ⟨h1, h2, h3⟩ := inv
      simp [forkThread, h1, h2, h3, cout]
    · obtain ⟨h1, h2⟩ := inv
      rcases h2 with ⟨h2, h3⟩ | ⟨h2, h3⟩ <;>
        simp [forkThread, h1, h2, h3, (pthread_create_frame _ _ _ _ _).2.1, new_pthread_t]

end JJC
